import Mathlib

/-!
Verification development for the chart-layout core of
src/kerykeion/charts/kerykeion_chart_svg.py.

Angles are modelled as rationals (Python floats carry exact decimal
literals here; no rounding behaviour of the claims depends on binary
floating point).  Python `int()` truncation is `pyInt`, dictionaries
keyed by degree are functions `ℚ → Option ℕ` built by in-order update,
and a raised `KerykeionException` is `Except.error`.
-/

namespace KerykeionSpec

/-- The four chart types accepted by `KerykeionChartSVG.__init__`. -/
inductive ChartType
  | Natal
  | ExternalNatal
  | Transit
  | Synastry
deriving DecidableEq, Repr

/-- Result of the constructor, as far as the second subject is concerned:
the primary degree list and the optional second-subject degree list
(`t_points_deg_ut`), which is only populated for Transit/Synastry. -/
structure ChartBuild where
  points_deg_ut : List ℚ
  t_points_deg_ut : Option (List ℚ)
deriving DecidableEq, Repr

/-- `KerykeionChartSVG.__init__`, lines 113-151: for Transit or Synastry a
missing second object raises `KerykeionException` before any layout data
for the second subject is produced; for Natal and ExternalNatal the second
object is never consulted. -/
def initChart (chart_type : ChartType) (first : List ℚ)
    (second : Option (List ℚ)) : Except String ChartBuild :=
  if chart_type = ChartType.Transit ∨ chart_type = ChartType.Synastry then
    match second with
    | none =>
        Except.error "Second object is required for Transit or Synastry charts."
    | some s => Except.ok ⟨first, some s⟩
  else
    Except.ok ⟨first, none⟩

/-- Modelled from the spec: `degreeDiff` (imported from
`kerykeion.charts.charts_utils`, which is not part of this repository
snapshot).  Spec 4.2: the minimal unsigned angular distance between two
longitudes, wrap-around handled, always in `[0,180]`. -/
def degreeDiff (a b : ℚ) : ℚ :=
  let d := (a - b) - 360 * ⌊(a - b) / 360⌋
  min d (360 - d)

/-- Python `int()` applied to a rational: truncation toward zero. -/
def pyInt (q : ℚ) : ℤ :=
  if q < 0 then -⌊-q⌋ else ⌊q⌋

/-- Line 389 (`_zodiacSlice`): the zodiac layer rotation anchor,
`offset = 360 - self.user.houses_degree_ut[6]`, kept exact. -/
def zodiacOffsetAnchor (cusp6 : ℚ) : ℚ := 360 - cusp6

/-- Angular position of longitude `deg` in the zodiac layer frame:
the anchor plus the longitude. -/
def zodiacPos (cusp6 deg : ℚ) : ℚ := zodiacOffsetAnchor cusp6 + deg

/-- Line 376/379 (`_drawAspect`): the aspect layer offset for a degree,
`(int(houses_degree_ut[6]) / -1) + int(deg)`. -/
def aspectLayerOffset (cusp6 deg : ℚ) : ℚ :=
  (pyInt cusp6 : ℚ) / (-1) + (pyInt deg : ℚ)

/-- Lines 836-838 (`_make_planets`): the natal glyph layer offset,
`(int(houses_degree_ut[6]) / -1) + int(points_deg_ut[i] + planets_delta[e])`. -/
def glyphLayerOffset (cusp6 deg delta : ℚ) : ℚ :=
  (pyInt cusp6 : ℚ) / (-1) + (pyInt (deg + delta) : ℚ)

/-- Lines 473-475 (`_makeHouses`): the house line layer offset,
`(int(houses_degree_ut[6]) / -1) + int(houses_degree_ut[i])`. -/
def houseLayerOffset (cusp6 cusp_i : ℚ) : ℚ :=
  (pyInt cusp6 : ℚ) / (-1) + (pyInt cusp_i : ℚ)

/-- Lines 940-943 (`_make_planets`, transit ring glyphs):
`zeropoint = 360 - houses_degree_ut[6]; t_offset = zeropoint + deg`,
wrapped by 360 when above 360. -/
def tGlyphLayerOffset (cusp6 deg : ℚ) : ℚ :=
  let zeropoint := 360 - cusp6
  let t := zeropoint + deg
  if t > 360 then t - 360 else t

/-- Two angles describe the same position on the wheel when they differ
by a whole number of turns. -/
def angEq (a b : ℚ) : Prop := ∃ k : ℤ, a - b = 360 * k

/-- Line 660: the natal-mode closeness threshold `planet_drange = 3.4`. -/
def planet_drange : ℚ := 3.4

/-- Lines 729-771 (`_make_planets`): the per-point deltas assigned to a
2-member cluster group in natal mode.  Arguments are the five gap values
the code reads: `ga1 = groups[a][0][1]` (left member's gap to its cyclic
predecessor), `g02 = groups[a][0][2]` (inner gap between the two members),
`gb2 = groups[a][1][2]` (right member's gap to its successor),
`na1 = planets_by_pos[next_to_a][1]` and `nb2 = planets_by_pos[next_to_b][2]`
(outward gaps of the two points adjacent to the group).  The result is
`(delta next_to_a, delta A, delta B, delta next_to_b)`, exactly the
`planets_delta` entries the elif chain writes (entries untouched stay 0). -/
def twoGroupDeltas (ga1 g02 gb2 na1 nb2 : ℚ) : ℚ × ℚ × ℚ × ℚ :=
  if ga1 > 2 * planet_drange ∧ gb2 > 2 * planet_drange then
    (0, -(planet_drange - g02) / 2, (planet_drange - g02) / 2, 0)
  else if ga1 > 2 * planet_drange then
    (0, -planet_drange, 0, 0)
  else if gb2 > 2 * planet_drange then
    (0, 0, planet_drange, 0)
  else if na1 > 2.4 * planet_drange ∧ nb2 > 2.4 * planet_drange then
    (ga1 - planet_drange * 2, -(planet_drange * 0.5), planet_drange * 0.5,
      -(gb2 - planet_drange * 2))
  else if na1 > 2 * planet_drange then
    (ga1 - planet_drange * 2.5, -(planet_drange * 1.2), 0, 0)
  else if nb2 > 2 * planet_drange then
    (0, 0, planet_drange * 1.2, -(gb2 - planet_drange * 2.5))
  else
    (0, 0, 0, 0)

/-- The property C5 asserts of the two member deltas: both nonzero and of
opposite sign. -/
def bothNonzeroOpposite (dA dB : ℚ) : Prop := dA ≠ 0 ∧ dB ≠ 0 ∧ dA * dB < 0

/-- Lines 913-925 (`_make_planets`, transit/synastry ring): the
`group_offset` dictionary update for one cluster `g` (a list of planet
indices), mirroring the sequential dict assignments (a later assignment to
the same key wins, hence the reversed test order). -/
def applyGroupOffset (off : ℕ → ℚ) : List ℕ → (ℕ → ℚ)
  | [a, b] => fun k => if k = b then 1.0 else if k = a then -1.0 else off k
  | [a, b, c] => fun k =>
      if k = c then 1.5 else if k = b then 0 else if k = a then -1.5 else off k
  | [a, b, c, d] => fun k =>
      if k = d then 2.0 else if k = c then 1.0 else if k = b then -1.0
      else if k = a then -2.0 else off k
  | _ => off

/-- The four point longitudes of the C6 stellium scenario: 0°, 8°, 16°, 24°. -/
def stelliumScenarioDegrees : Fin 4 → ℚ
  | 0 => 0
  | 1 => 8
  | 2 => 16
  | 3 => 24

/-- Lines 1069-1076 (`_makePatterns`): the conjunction test against the
band `[degree - orb, degree + orb]` with `degree = 0`. -/
def inConjunction (orb a b : ℚ) : Prop :=
  0 - orb ≤ degreeDiff a b ∧ degreeDiff a b ≤ 0 + orb

/-- Conjunction adjacency of two scenario points. -/
def conjChain (orb : ℚ) (i j : Fin 4) : Prop :=
  inConjunction orb (stelliumScenarioDegrees i) (stelliumScenarioDegrees j)

/-- Insertion of one index into a sorted index list (helper for the
`l.sort()` call at line 1161). -/
def insertSorted (x : Fin 4) : List (Fin 4) → List (Fin 4)
  | [] => [x]
  | y :: ys => if x ≤ y then x :: y :: ys else y :: insertSorted x ys

/-- The Python `list.sort()` at line 1161, as insertion sort. -/
def sortKey : List (Fin 4) → List (Fin 4)
  | [] => []
  | x :: xs => insertSorted x (sortKey xs)

/-- Lines 1136-1177 (`_makePatterns`): the set of deduplicated stellium keys
produced by the chain scan `k -> l -> n -> p -> r` (the key records the
sorted `[k, n, p, r]`; the scan skips `n = k`, `p ∈ {k, n}` and
`r ∈ {k, n, p}`).  A set of keys abstracts the dict: duplicates from
different scan orders collapse. -/
def stelliumKeys (orb : ℚ) : Set (List (Fin 4)) :=
  { key | ∃ k l n p r : Fin 4,
      conjChain orb k l ∧ conjChain orb l n ∧ n ≠ k ∧
      conjChain orb n p ∧ p ≠ k ∧ p ≠ n ∧
      conjChain orb p r ∧ r ≠ k ∧ r ≠ n ∧ r ≠ p ∧
      key = sortKey [k, n, p, r] }

/-- Lines 1185-1195: the text block built for one Yod entry at vertical
position `y` from the three member glyph names. -/
def yotEntryText (base_color : String) (y : ℕ)
    (names : String × String × String) : String :=
  "<text y=\"" ++ toString y ++ "\" style=\"fill:" ++ base_color ++
    "; font-size: 12px;\">Yot</text>" ++
  "<g transform=\"translate(20," ++ toString y ++ ")\">" ++
  "<use transform=\"scale(0.4)\" x=\"0\" y=\"-20\" xlink:href=\"#" ++
    names.1 ++ "\" /></g>" ++
  "<g transform=\"translate(30," ++ toString y ++ ")\">" ++
  "<use transform=\"scale(0.4)\" x=\"0\" y=\"-20\" xlink:href=\"#" ++
    names.2.1 ++ "\" /></g>" ++
  "<g transform=\"translate(40," ++ toString y ++ ")\">" ++
  "<use transform=\"scale(0.4)\" x=\"0\" y=\"-20\" xlink:href=\"#" ++
    names.2.2 ++ "\" /></g>"

/-- Lines 1179-1199: the `out` string assembled from the Yod entries
(each successive entry 14 units lower). -/
def renderYots (base_color : String)
    (yot : List (String × String × String)) : String :=
  "<g transform=\"translate(-30,380)\">" ++
    String.join ((yot.enum).map fun p => yotEntryText base_color (14 * p.1) p.2) ++
    "</g>"

/-- Lines 1178-1201 (`_makePatterns`, tail): the pattern text is computed
into `out`, but the function returns the empty string (the `return out`
line is commented out in the source). -/
def makePatterns (base_color : String)
    (yot : List (String × String × String)) : String :=
  let _out := renderYots base_color yot
  ""

/-- Lines 1619-1668 (`_createTemplateDictionary`): which lunar-phase bracket
of the elif chain fires for a `degrees_between_s_m` value. -/
def lunarBracket (deg : ℚ) : Option (Fin 4) :=
  if deg < 90 then some 0
  else if deg < 180 then some 1
  else if deg < 270 then some 2
  else if deg < 361 then some 3
  else none

/-- Lines 1619-1668: the lunar-phase computation.  Each bracket assigns all
four outputs `(lffg, lfbg, lfcx, lfr)`; if no bracket fired the defensive
check at line 1667 raises `KerykeionException("Lunar phase error")`.
`c0` and `c1` stand for the configured colors `lunar_phase_0` and
`lunar_phase_1`. -/
def lunarPhase (c0 c1 : String) (deg : ℚ) :
    Except String (String × String × ℚ × ℚ) :=
  if deg < 90 then
    let maxr := if deg > 80 then deg * deg else deg
    Except.ok (c0, c1, 20 + deg / 90 * (maxr + 10), 10 + deg / 90 * maxr)
  else if deg < 180 then
    let maxr := if deg < 100 then (180 - deg) * (180 - deg) else 180 - deg
    Except.ok (c1, c0, 20 + (deg - 90) / 90 * (maxr + 10) - (maxr + 10),
      10 + maxr - (deg - 90) / 90 * maxr)
  else if deg < 270 then
    let maxr := if deg > 260 then (deg - 180) * (deg - 180) else deg - 180
    Except.ok (c1, c0, 20 + (deg - 180) / 90 * (maxr + 10),
      10 + (deg - 180) / 90 * maxr)
  else if deg < 361 then
    let maxr := if deg < 280 then (360 - deg) * (360 - deg) else 360 - deg
    Except.ok (c0, c1, 20 + (deg - 270) / 90 * (maxr + 10) - (maxr + 10),
      10 + maxr - (deg - 270) / 90 * maxr)
  else
    Except.error "Lunar phase error"

/-- Lines 644-648 and 883-886 (`_make_planets`): the degree-keyed planet
dictionary, built by inserting `deg i ↦ i` for `i` in order over
`range len` (skipping inactive points); a later insert overwrites. -/
def buildDegut (deg : ℕ → ℚ) (active : ℕ → Bool) (len : ℕ) : ℚ → Option ℕ :=
  (List.range len).foldl
    (fun m i => if active i then Function.update m (deg i) (some i) else m)
    (fun _ => none)

/-- Lines 644-648: `planets_degut` of the primary pass (`n` available
points). -/
def planetsDegut (points_deg_ut : ℕ → ℚ) (active : ℕ → Bool) (n : ℕ) :
    ℚ → Option ℕ :=
  buildDegut points_deg_ut active n

/-- Lines 879-886: `t_planets_degut` of the secondary pass; for Transit the
loop range is `len(available_planets_setting) - 4`, for Synastry the full
range. -/
def tPlanetsDegut (t_points_deg_ut : ℕ → ℚ) (active : ℕ → Bool) (n : ℕ)
    (isTransit : Bool) : ℚ → Option ℕ :=
  buildDegut t_points_deg_ut active (if isTransit then n - 4 else n)

/-- Lines 663-674 (`_make_planets`): the neighbour degrees read for entry
`e` of the sorted key list: `keys[-1]` and `keys[1]` for the first entry,
`keys[e-1]` and `keys[0]` for the last, `keys[e-1]` and `keys[e+1]`
otherwise; `none` models the `IndexError` a Python out-of-range subscript
raises. -/
def neighborDegrees (keys : List ℚ) (e : ℕ) : Option (ℚ × ℚ) :=
  if e = 0 then
    match keys.getLast?, keys[1]? with
    | some p, some nx => some (p, nx)
    | _, _ => none
  else if e = keys.length - 1 then
    match keys[e - 1]?, keys[0]? with
    | some p, some nx => some (p, nx)
    | _, _ => none
  else
    match keys[e - 1]?, keys[e + 1]? with
    | some p, some nx => some (p, nx)
    | _, _ => none

/-- C1: for every chart build of type Transit or Synastry in which no second
subject is supplied, construction raises `KerykeionException` and returns no
partial result; for Natal and ExternalNatal the absence of a second subject
never raises. -/
theorem second_subject_check (ct : ChartType) (first : List ℚ)
    (second : Option (List ℚ)) :
    ((ct = ChartType.Transit ∨ ct = ChartType.Synastry) → second = none →
      initChart ct first second =
        Except.error "Second object is required for Transit or Synastry charts.") ∧
    ((ct = ChartType.Natal ∨ ct = ChartType.ExternalNatal) →
      ∃ b : ChartBuild, initChart ct first second = Except.ok b) := by
  constructor
  · intro h hs
    subst hs
    simp [initChart, h]
  · intro h
    have hnot : ¬ (ct = ChartType.Transit ∨ ct = ChartType.Synastry) := by
      rcases h with h | h <;> subst h <;> simp
    exact ⟨⟨first, none⟩, by simp [initChart, hnot]⟩

/-- C1 witness: concrete instances of both halves. -/
theorem second_subject_check_witness :
    initChart ChartType.Transit [0] none =
      Except.error "Second object is required for Transit or Synastry charts." ∧
    ∃ b : ChartBuild, initChart ChartType.Natal [0] none = Except.ok b :=
  ⟨(second_subject_check ChartType.Transit [0] none).1 (Or.inl rfl) rfl,
   (second_subject_check ChartType.Natal [0] none).2 (Or.inl rfl)⟩

/-- C2 counterexample: with house cusp 6 at 0.5° and a point at longitude 0°,
the zodiac layer (exact anchor `360 - cusp[6]`) places the point at 359.5°,
while the aspect layer offset (`int(cusp6) / -1 + int(deg)`) is 0°; the two do
not describe the same angular position modulo 360. -/
theorem layer_offsets_disagree :
    ¬ angEq (zodiacPos (1/2) 0) (aspectLayerOffset (1/2) 0) := by
  rintro ⟨k, hk⟩
  have h1 : zodiacPos (1/2) 0 = 719/2 := by
    norm_num [zodiacPos, zodiacOffsetAnchor]
  have h2 : aspectLayerOffset (1/2) 0 = 0 := by
    norm_num [aspectLayerOffset, pyInt]
  rw [h1, h2] at hk
  have hq : (719 : ℚ) = 720 * (k : ℚ) := by linarith
  have hz : (719 : ℤ) = 720 * k := by exact_mod_cast hq
  omega

/-- C2 amended: the aspect, house-line and natal-glyph layers all use the same
truncated offset `int(deg) - int(cusp6)`, and the zodiac and transit-glyph
layers both use the exact anchor `360 - cusp[6]`; a truncated layer and an
exact layer agree modulo 360 exactly when the fractional parts of the cusp
and of the longitude coincide (in particular for whole-degree inputs). -/
theorem layer_anchor_amended (c d : ℚ) (hc : 0 ≤ c) (hd : 0 ≤ d) :
    (glyphLayerOffset c d 0 = aspectLayerOffset c d ∧
      houseLayerOffset c d = aspectLayerOffset c d) ∧
    angEq (zodiacPos c d) (tGlyphLayerOffset c d) ∧
    (angEq (zodiacPos c d) (aspectLayerOffset c d) ↔ Int.fract d = Int.fract c) := by
  have h91 : pyInt c = ⌊c⌋ := by simp [pyInt, not_lt.mpr hc]
  have hd1 : pyInt d = ⌊d⌋ := by simp [pyInt, not_lt.mpr hd]
  refine ⟨⟨by simp [glyphLayerOffset, aspectLayerOffset], rfl⟩, ?_, ?_⟩
  · unfold zodiacPos zodiacOffsetAnchor tGlyphLayerOffset
    by_cases hw : 360 - c + d > 360
    · refine ⟨1, ?_⟩
      simp only [if_pos hw]
      ring
    · refine ⟨0, ?_⟩
      simp only [if_neg hw]
      ring
  · have hdiff : zodiacPos c d - aspectLayerOffset c d =
        360 + Int.fract d - Int.fract c := by
      unfold zodiacPos zodiacOffsetAnchor aspectLayerOffset
      rw [hd1, h91]
      unfold Int.fract
      ring
    constructor
    · rintro ⟨k, hk⟩
      rw [hdiff] at hk
      have hfd0 : (0 : ℚ) ≤ Int.fract d := Int.fract_nonneg d
      have hfd1 : Int.fract d < 1 := Int.fract_lt_one d
      have hfc0 : (0 : ℚ) ≤ Int.fract c := Int.fract_nonneg c
      have hfc1 : Int.fract c < 1 := Int.fract_lt_one c
      have hk1 : k = 1 := by
        by_contra hne
        rcases lt_or_gt_of_ne (sub_ne_zero.mpr hne) with h | h
        · have hle : (k : ℚ) - 1 ≤ -1 := by
            exact_mod_cast (by omega : (k : ℤ) - 1 ≤ -1)
          have : (k : ℚ) * 360 ≤ 0 := by nlinarith
          nlinarith
        · have hle : (1 : ℚ) ≤ (k : ℚ) - 1 := by
            exact_mod_cast (by omega : (1 : ℤ) ≤ k - 1)
          nlinarith
      subst hk1
      push_cast at hk
      linarith
    · intro h
      exact ⟨1, by rw [hdiff, h]; push_cast; ring⟩

/-- C2 amended witness: at whole-degree inputs (cusp 1°, longitude 2°) the
truncated aspect layer and the exact zodiac layer agree modulo 360. -/
theorem layer_anchor_amended_witness :
    angEq (zodiacPos 1 2) (aspectLayerOffset 1 2) :=
  ((layer_anchor_amended 1 2 (by norm_num) (by norm_num)).2.2).mpr
    (by norm_num [Int.fract])

/-- C3: the natal-mode deltas of a 2-member cluster group follow the
priority-ordered rule table of spec 4.3 step 4, evaluated top to bottom with
early exit: (i) both outward gaps over `2D` give the symmetric split by the
inner gap; (ii) room only on the left shifts the left member by `-D`;
(iii) room only on the right shifts the right member by `+D`; (iv) both
adjacent points with gap over `2.4D` cascade the adjacent points by the
leftover gap minus `2D` and the members by half a `D` each way; (v)/(vi) the
one-sided cascades move the adjacent point by the leftover gap minus `2.5D`
and the member by `1.2D`; with no rule firing all deltas stay 0. -/
theorem two_group_rule_table (ga1 g02 gb2 na1 nb2 : ℚ) :
    (2 * planet_drange < ga1 → 2 * planet_drange < gb2 →
      twoGroupDeltas ga1 g02 gb2 na1 nb2 =
        (0, -(planet_drange - g02) / 2, (planet_drange - g02) / 2, 0)) ∧
    (2 * planet_drange < ga1 → ¬ 2 * planet_drange < gb2 →
      twoGroupDeltas ga1 g02 gb2 na1 nb2 = (0, -planet_drange, 0, 0)) ∧
    (¬ 2 * planet_drange < ga1 → 2 * planet_drange < gb2 →
      twoGroupDeltas ga1 g02 gb2 na1 nb2 = (0, 0, planet_drange, 0)) ∧
    (¬ 2 * planet_drange < ga1 → ¬ 2 * planet_drange < gb2 →
      2.4 * planet_drange < na1 → 2.4 * planet_drange < nb2 →
      twoGroupDeltas ga1 g02 gb2 na1 nb2 =
        (ga1 - planet_drange * 2, -(planet_drange * 0.5), planet_drange * 0.5,
          -(gb2 - planet_drange * 2))) ∧
    (¬ 2 * planet_drange < ga1 → ¬ 2 * planet_drange < gb2 →
      ¬ (2.4 * planet_drange < na1 ∧ 2.4 * planet_drange < nb2) →
      2 * planet_drange < na1 →
      twoGroupDeltas ga1 g02 gb2 na1 nb2 =
        (ga1 - planet_drange * 2.5, -(planet_drange * 1.2), 0, 0)) ∧
    (¬ 2 * planet_drange < ga1 → ¬ 2 * planet_drange < gb2 →
      ¬ (2.4 * planet_drange < na1 ∧ 2.4 * planet_drange < nb2) →
      ¬ 2 * planet_drange < na1 → 2 * planet_drange < nb2 →
      twoGroupDeltas ga1 g02 gb2 na1 nb2 =
        (0, 0, planet_drange * 1.2, -(gb2 - planet_drange * 2.5))) ∧
    (¬ 2 * planet_drange < ga1 → ¬ 2 * planet_drange < gb2 →
      ¬ (2.4 * planet_drange < na1 ∧ 2.4 * planet_drange < nb2) →
      ¬ 2 * planet_drange < na1 → ¬ 2 * planet_drange < nb2 →
      twoGroupDeltas ga1 g02 gb2 na1 nb2 = (0, 0, 0, 0)) := by
  unfold twoGroupDeltas
  refine ⟨?_, ?_, ?_, ?_, ?_, ?_, ?_⟩
  · intro h1 h2
    rw [if_pos ⟨h1, h2⟩]
  · intro h1 h2
    rw [if_neg (fun hc => h2 hc.2), if_pos h1]
  · intro h1 h2
    rw [if_neg (fun hc => h1 hc.1), if_neg h1, if_pos h2]
  · intro h1 h2 h3 h4
    rw [if_neg (fun hc => h1 hc.1), if_neg h1, if_neg h2, if_pos ⟨h3, h4⟩]
  · intro h1 h2 h3 h4
    rw [if_neg (fun hc => h1 hc.1), if_neg h1, if_neg h2, if_neg h3, if_pos h4]
  · intro h1 h2 h3 h4 h5
    rw [if_neg (fun hc => h1 hc.1), if_neg h1, if_neg h2, if_neg h3, if_neg h4,
      if_pos h5]
  · intro h1 h2 h3 h4 h5
    rw [if_neg (fun hc => h1 hc.1), if_neg h1, if_neg h2, if_neg h3, if_neg h4,
      if_neg h5]

/-- C3 witness: a concrete rule-(i) instance with outward gaps 10 and inner
gap 1. -/
theorem two_group_rule_table_witness :
    twoGroupDeltas 10 1 10 0 0 =
      (0, -(planet_drange - 1) / 2, (planet_drange - 1) / 2, 0) :=
  (two_group_rule_table 10 1 10 0 0).1
    (by norm_num [planet_drange]) (by norm_num [planet_drange])

/-- C5 counterexample: for a 2-member group with inner gap 0 (coincident
points), outward gaps 10 and 1 and adjacent gaps 0, the one-sided room rule
(ii) fires (10 exceeds `2D = 6.8`), yet only the left member is shifted:
the deltas are `(-3.4, 0)`, not a nonzero opposite-sign pair. -/
theorem coincident_pair_cex :
    2 * planet_drange < 10 ∧
    twoGroupDeltas 10 0 1 0 0 = (0, -planet_drange, 0, 0) ∧
    ¬ bothNonzeroOpposite (twoGroupDeltas 10 0 1 0 0).2.1
        (twoGroupDeltas 10 0 1 0 0).2.2.1 := by
  have h : twoGroupDeltas 10 0 1 0 0 = (0, -planet_drange, 0, 0) := by
    norm_num [twoGroupDeltas, planet_drange]
  refine ⟨by norm_num [planet_drange], h, ?_⟩
  rw [h]
  simp [bothNonzeroOpposite]

/-- C5 amended: coincident points (inner gap 0) forming a 2-member group
receive nonzero opposite-sign deltas whenever one of the symmetric rules
fires — rule (i), both outward gaps over `2D`, or rule (iv), both adjacent
gaps over `2.4D`; the one-sided rules shift only one member. -/
theorem coincident_pair_amended (ga1 gb2 na1 nb2 : ℚ) :
    (2 * planet_drange < ga1 → 2 * planet_drange < gb2 →
      bothNonzeroOpposite (twoGroupDeltas ga1 0 gb2 na1 nb2).2.1
        (twoGroupDeltas ga1 0 gb2 na1 nb2).2.2.1) ∧
    (¬ 2 * planet_drange < ga1 → ¬ 2 * planet_drange < gb2 →
      2.4 * planet_drange < na1 → 2.4 * planet_drange < nb2 →
      bothNonzeroOpposite (twoGroupDeltas ga1 0 gb2 na1 nb2).2.1
        (twoGroupDeltas ga1 0 gb2 na1 nb2).2.2.1) := by
  constructor
  · intro h1 h2
    have h : twoGroupDeltas ga1 0 gb2 na1 nb2 =
        (0, -(planet_drange - 0) / 2, (planet_drange - 0) / 2, 0) := by
      simp [twoGroupDeltas, h1, h2]
    rw [h]
    norm_num [bothNonzeroOpposite, planet_drange]
  · intro h1 h2 h3 h4
    have h : twoGroupDeltas ga1 0 gb2 na1 nb2 =
        (ga1 - planet_drange * 2, -(planet_drange * 0.5), planet_drange * 0.5,
          -(gb2 - planet_drange * 2)) := by
      simp [twoGroupDeltas, h1, h2, h3, h4]
    rw [h]
    norm_num [bothNonzeroOpposite, planet_drange]

/-- C5 amended witness: rule (i) at outward gaps 10 gives the coincident
pair the deltas `-1.7` and `+1.7`. -/
theorem coincident_pair_amended_witness :
    bothNonzeroOpposite (twoGroupDeltas 10 0 10 0 0).2.1
      (twoGroupDeltas 10 0 10 0 0).2.2.1 :=
  (coincident_pair_amended 10 10 0 0).1
    (by norm_num [planet_drange]) (by norm_num [planet_drange])

/-- C4: in the transit/synastry secondary ring, a cluster's display offsets
depend only on its size — a pair gets `(-1, +1)`, a triple
`(-1.5, 0, +1.5)`, a quadruple `(-2, -1, +1, +2)` in order, and any cluster
of five or more members leaves the offset table unchanged, so every member
keeps offset 0. -/
theorem transit_cluster_offsets (off : ℕ → ℚ) :
    (∀ a b : ℕ, a ≠ b →
      applyGroupOffset off [a, b] a = -1 ∧ applyGroupOffset off [a, b] b = 1) ∧
    (∀ a b c : ℕ, a ≠ b → a ≠ c → b ≠ c →
      applyGroupOffset off [a, b, c] a = -1.5 ∧
      applyGroupOffset off [a, b, c] b = 0 ∧
      applyGroupOffset off [a, b, c] c = 1.5) ∧
    (∀ a b c d : ℕ, a ≠ b → a ≠ c → a ≠ d → b ≠ c → b ≠ d → c ≠ d →
      applyGroupOffset off [a, b, c, d] a = -2 ∧
      applyGroupOffset off [a, b, c, d] b = -1 ∧
      applyGroupOffset off [a, b, c, d] c = 1 ∧
      applyGroupOffset off [a, b, c, d] d = 2) ∧
    (∀ g : List ℕ, 5 ≤ g.length → applyGroupOffset off g = off) := by
  refine ⟨?_, ?_, ?_, ?_⟩
  · intro a b hab
    constructor <;> norm_num [applyGroupOffset, hab, hab.symm]
  · intro a b c hab hac hbc
    refine ⟨?_, ?_, ?_⟩ <;>
      norm_num [applyGroupOffset, hab, hac, hbc, hab.symm, hac.symm, hbc.symm]
  · intro a b c d hab hac had hbc hbd hcd
    refine ⟨?_, ?_, ?_, ?_⟩ <;>
      norm_num [applyGroupOffset, hab, hac, had, hbc, hbd, hcd,
        hab.symm, hac.symm, had.symm, hbc.symm, hbd.symm, hcd.symm]
  · intro g hg
    match g, hg with
    | a :: b :: c :: d :: e :: t, _ => rfl

/-- C4 witness: concrete clusters of sizes 2, 4 and 5 over the zero offset
table. -/
theorem transit_cluster_offsets_witness :
    applyGroupOffset (fun _ => 0) [0, 1] 0 = -1 ∧
    applyGroupOffset (fun _ => 0) [0, 1] 1 = 1 ∧
    applyGroupOffset (fun _ => 0) [0, 1, 2, 3] 1 = -1 ∧
    applyGroupOffset (fun _ => 0) [0, 1, 2, 3, 4] 2 = 0 := by
  have h2 := (transit_cluster_offsets (fun _ => 0)).1 0 1 (by norm_num)
  have h4 := (transit_cluster_offsets (fun _ => 0)).2.2.1 0 1 2 3
    (by norm_num) (by norm_num) (by norm_num) (by norm_num) (by norm_num)
    (by norm_num)
  have h5 := (transit_cluster_offsets (fun _ => 0)).2.2.2 [0, 1, 2, 3, 4]
    (by norm_num)
  exact ⟨h2.1, h2.2, h4.2.1, by rw [h5]⟩

/-- Sorting any four pairwise distinct indices of `Fin 4` yields
`[0, 1, 2, 3]`. -/
theorem sortKey_distinct_four (k n p r : Fin 4)
    (hnk : n ≠ k) (hpk : p ≠ k) (hpn : p ≠ n)
    (hrk : r ≠ k) (hrn : r ≠ n) (hrp : r ≠ p) :
    sortKey [k, n, p, r] = [0, 1, 2, 3] := by
  revert hnk hpk hpn hrk hrn hrp
  revert k n p r
  decide

/-- C6: four pattern-eligible points at 0°, 8°, 16°, 24° with a conjunction
definition of angle 0° and orb at least 8° produce exactly one stellium
key, the sorted list of all four point indices, independent of scan
order. -/
theorem stellium_scenario (orb : ℚ) (h : 8 ≤ orb) :
    stelliumKeys orb = {[0, 1, 2, 3]} := by
  ext key
  simp only [Set.mem_singleton_iff]
  constructor
  · rintro ⟨k, l, n, p, r, _, _, hnk, _, hpk, hpn, _, hrk, hrn, hrp, rfl⟩
    exact sortKey_distinct_four k n p r hnk hpk hpn hrk hrn hrp
  · rintro rfl
    have h00 : degreeDiff (stelliumScenarioDegrees 0)
        (stelliumScenarioDegrees 0) = 0 := by
      norm_num [degreeDiff, stelliumScenarioDegrees]
    have h01 : degreeDiff (stelliumScenarioDegrees 0)
        (stelliumScenarioDegrees 1) = 8 := by
      norm_num [degreeDiff, stelliumScenarioDegrees]
    have h12 : degreeDiff (stelliumScenarioDegrees 1)
        (stelliumScenarioDegrees 2) = 8 := by
      norm_num [degreeDiff, stelliumScenarioDegrees]
    have h23 : degreeDiff (stelliumScenarioDegrees 2)
        (stelliumScenarioDegrees 3) = 8 := by
      norm_num [degreeDiff, stelliumScenarioDegrees]
    refine ⟨0, 0, 1, 2, 3, ?_, ?_, by decide, ?_, by decide, by decide, ?_,
      by decide, by decide, by decide, by decide⟩
    · exact ⟨by rw [h00]; linarith, by rw [h00]; linarith⟩
    · exact ⟨by rw [h01]; linarith, by rw [h01]; linarith⟩
    · exact ⟨by rw [h12]; linarith, by rw [h12]; linarith⟩
    · exact ⟨by rw [h23]; linarith, by rw [h23]; linarith⟩

/-- C6 witness: the scenario at orb exactly 8°. -/
theorem stellium_scenario_witness : stelliumKeys 8 = {[0, 1, 2, 3]} :=
  stellium_scenario 8 (by norm_num)

/-- C7: for every lunar-phase input in `[0, 360)` exactly one bracket of the
elif chain fires (the chain returns a bracket index) and the computation
returns all four outputs, so the defensive fatal branch is unreachable
there; an input outside every bracket instead raises the fatal
`Lunar phase error` and returns no result. -/
theorem lunar_phase_brackets (c0 c1 : String) (deg : ℚ) :
    (0 ≤ deg → deg < 360 →
      (∃ i : Fin 4, lunarBracket deg = some i) ∧
      ∃ v, lunarPhase c0 c1 deg = Except.ok v) ∧
    (lunarBracket deg = none →
      lunarPhase c0 c1 deg = Except.error "Lunar phase error") := by
  constructor
  · intro h0 h360
    by_cases h1 : deg < 90
    · refine ⟨⟨0, by simp [lunarBracket, h1]⟩, ?_⟩
      unfold lunarPhase
      rw [if_pos h1]
      exact ⟨_, rfl⟩
    · by_cases h2 : deg < 180
      · refine ⟨⟨1, by simp [lunarBracket, h1, h2]⟩, ?_⟩
        unfold lunarPhase
        rw [if_neg h1, if_pos h2]
        exact ⟨_, rfl⟩
      · by_cases h3 : deg < 270
        · refine ⟨⟨2, by simp [lunarBracket, h1, h2, h3]⟩, ?_⟩
          unfold lunarPhase
          rw [if_neg h1, if_neg h2, if_pos h3]
          exact ⟨_, rfl⟩
        · have h4 : deg < 361 := by linarith
          refine ⟨⟨3, by simp [lunarBracket, h1, h2, h3, h4]⟩, ?_⟩
          unfold lunarPhase
          rw [if_neg h1, if_neg h2, if_neg h3, if_pos h4]
          exact ⟨_, rfl⟩
  · intro hn
    unfold lunarBracket at hn
    split_ifs at hn with h1 h2 h3 h4
    unfold lunarPhase
    rw [if_neg h1, if_neg h2, if_neg h3, if_neg h4]

/-- C7 witness: the computation succeeds at 45°. -/
theorem lunar_phase_brackets_witness :
    ∃ v, lunarPhase "fg" "bg" 45 = Except.ok v :=
  ((lunar_phase_brackets "fg" "bg" 45).1 (by norm_num) (by norm_num)).2

/-- C8: the pattern-detection pass assembles its output text but returns
the empty string for every input, so no detected pattern reaches the chart
output. -/
theorem make_patterns_returns_empty (base_color : String)
    (yot : List (String × String × String)) :
    makePatterns base_color yot = "" := rfl

/-- Characterization of the degree-keyed dictionary: a lookup returns
index `v` exactly when `v` is in range and active, its degree is the key,
and no later in-range active index shares that degree. -/
theorem buildDegut_eq_some (deg : ℕ → ℚ) (active : ℕ → Bool) :
    ∀ (len : ℕ) (q : ℚ) (v : ℕ),
    (buildDegut deg active len q = some v ↔
      (v < len ∧ active v = true ∧ deg v = q ∧
        ∀ k, v < k → k < len → active k = true → deg k ≠ q)) := by
  intro len
  induction len with
  | zero =>
    intro q v
    simp [buildDegut]
  | succ m ih =>
    intro q v
    by_cases hm : active m
    · have hstep : buildDegut deg active (m + 1) q =
          Function.update (buildDegut deg active m) (deg m) (some m) q := by
        unfold buildDegut
        rw [List.range_succ, List.foldl_append]
        simp only [List.foldl_cons, List.foldl_nil]
        rw [if_pos hm]
      rw [hstep]
      rw [Function.update_apply]
      by_cases hq : q = deg m
      · subst hq
        simp only [if_pos rfl]
        constructor
        · intro hv
          have hv' : v = m := by
            injection hv with hv
            omega
          subst hv'
          exact ⟨by omega, hm, rfl, fun k hk1 hk2 => by omega⟩
        · rintro ⟨hlt, hact, hdeg, hlast⟩
          by_cases hvm : v = m
          · subst hvm; rfl
          · exfalso
            have hvm' : v < m := by omega
            exact hlast m hvm' (by omega) hm rfl
      · rw [if_neg hq, ih q v]
        constructor
        · rintro ⟨hlt, hact, hdeg, hlast⟩
          refine ⟨by omega, hact, hdeg, ?_⟩
          intro k hk1 hk2 hk3
          by_cases hkm : k = m
          · subst hkm
            intro hdm
            exact hq hdm.symm
          · exact hlast k hk1 (by omega) hk3
        · rintro ⟨hlt, hact, hdeg, hlast⟩
          have hvm : v ≠ m := by
            intro hvm
            subst hvm
            exact hq hdeg.symm
          refine ⟨by omega, hact, hdeg, ?_⟩
          intro k hk1 hk2 hk3
          exact hlast k hk1 (by omega) hk3
    · have hstep : buildDegut deg active (m + 1) q =
          buildDegut deg active m q := by
        unfold buildDegut
        rw [List.range_succ, List.foldl_append]
        simp only [List.foldl_cons, List.foldl_nil]
        rw [if_neg hm]
      rw [hstep, ih q v]
      constructor
      · rintro ⟨hlt, hact, hdeg, hlast⟩
        refine ⟨by omega, hact, hdeg, ?_⟩
        intro k hk1 hk2 hk3
        by_cases hkm : k = m
        · subst hkm
          exact absurd hk3 (by simp [hm])
        · exact hlast k hk1 (by omega) hk3
      · rintro ⟨hlt, hact, hdeg, hlast⟩
        have hvm : v ≠ m := by
          intro hvm
          subst hvm
          exact hm hact
        refine ⟨by omega, hact, hdeg, ?_⟩
        intro k hk1 hk2 hk3
        exact hlast k hk1 (by omega) hk3

/-- C9: when two active points share the same absolute longitude, the
degree-keyed dictionary keeps only the later-indexed point — the earlier
index is never a value of the map, and when the later point is the last
one at that degree its index is the stored value; the same holds for the
secondary transit/synastry pass over its loop range. -/
theorem degree_key_collision (deg t_deg : ℕ → ℚ) (active : ℕ → Bool) (n : ℕ)
    (isTransit : Bool) (i j : ℕ) :
    (i < j → j < n → active i = true → active j = true → deg i = deg j →
      (∀ q, planetsDegut deg active n q ≠ some i) ∧
      ((∀ k, j < k → k < n → active k = true → deg k ≠ deg i) →
        planetsDegut deg active n (deg i) = some j)) ∧
    (i < j → j < (if isTransit then n - 4 else n) → active i = true →
      active j = true → t_deg i = t_deg j →
      ∀ q, tPlanetsDegut t_deg active n isTransit q ≠ some i) := by
  constructor
  · intro hij hjn hai haj hdij
    constructor
    · intro q hq
      rw [planetsDegut, buildDegut_eq_some] at hq
      obtain ⟨hvlen, hact, hdeg, hlater⟩ := hq
      exact hlater j hij hjn haj (by rw [← hdij, hdeg])
    · intro hlast
      rw [planetsDegut, buildDegut_eq_some]
      refine ⟨hjn, haj, hdij.symm, ?_⟩
      intro k hk1 hk2 hk3
      exact hlast k hk1 hk2 hk3
  · intro hij hjn hai haj hdij q hq
    rw [tPlanetsDegut, buildDegut_eq_some] at hq
    obtain ⟨hvlen, hact, hdeg, hlater⟩ := hq
    exact hlater j hij hjn haj (by rw [← hdij, hdeg])

/-- C9 witness: two active points, both at 5°; the map never stores index
0 and stores index 1 at key 5. -/
theorem degree_key_collision_witness :
    (∀ q, planetsDegut (fun _ => 5) (fun _ => true) 2 q ≠ some 0) ∧
    planetsDegut (fun _ => 5) (fun _ => true) 2
      ((fun _ : ℕ => (5 : ℚ)) 0) = some 1 := by
  have h := (degree_key_collision (fun _ => 5) (fun _ => 5) (fun _ => true) 2
    false 0 1).1 (by omega) (by omega) rfl rfl rfl
  exact ⟨h.1, h.2 (fun k hk1 hk2 _ => by omega)⟩

/-- C10: the neighbour-gap lookup of the natal layout scan is total for key
lists with at least two entries, but with exactly one entry the first
iteration reads `keys[1]`, which is out of bounds, so the build fails. -/
theorem single_point_scan (keys : List ℚ) :
    (keys.length = 1 → neighborDegrees keys 0 = none) ∧
    (2 ≤ keys.length → ∀ e, e < keys.length →
      (neighborDegrees keys e).isSome = true) := by
  constructor
  · intro h
    match keys, h with
    | [a], _ => rfl
  · intro h2 e he
    have hne : keys ≠ [] := by
      intro hnil
      rw [hnil] at h2
      simp at h2
    by_cases he0 : e = 0
    · subst he0
      obtain ⟨p, hp⟩ := Option.isSome_iff_exists.mp
        (List.getLast?_isSome.mpr hne)
      have h1 : keys[1]? = some keys[1] :=
        List.getElem?_eq_getElem (by omega)
      rw [neighborDegrees, if_pos rfl, hp, h1]
      rfl
    · by_cases hel : e = keys.length - 1
      · have hprev : keys[e - 1]? = some keys[e - 1] :=
          List.getElem?_eq_getElem (by omega)
        have h0 : keys[0]? = some keys[0] :=
          List.getElem?_eq_getElem (by omega)
        rw [neighborDegrees, if_neg he0, if_pos hel, hprev, h0]
        rfl
      · have hprev : keys[e - 1]? = some keys[e - 1] :=
          List.getElem?_eq_getElem (by omega)
        have hnext : keys[e + 1]? = some keys[e + 1] :=
          List.getElem?_eq_getElem (by omega)
        rw [neighborDegrees, if_neg he0, if_neg hel, hprev, hnext]
        rfl

/-- C10 witness: a one-entry key list fails; a two-entry list is total at
its last position. -/
theorem single_point_scan_witness :
    neighborDegrees [(7 : ℚ)] 0 = none ∧
    (neighborDegrees [(7 : ℚ), 9] 1).isSome = true :=
  ⟨(single_point_scan [(7 : ℚ)]).1 rfl,
   (single_point_scan [(7 : ℚ), 9]).2 (by norm_num) 1 (by norm_num)⟩

end KerykeionSpec
